import Mathlib

/-!
Shallow embedding of the map-search component implemented in
src/components/MapSearch.tsx: session state, the keyword-search handler
and its provider callback, the autocomplete handler, the one-shot
geolocation step, the marker / list-row / overlay-close click handlers
and the info-window rendering. Side effects (pans, alerts, console
output, outgoing provider calls) are returned as an explicit event list.
-/

namespace MapApp

/-- A latitude/longitude pair (google.maps.LatLngLiteral). -/
structure Coord where
  lat : ℚ
  lng : ℚ
deriving DecidableEq

/-- A place record as consumed by the component
(google.maps.places.PlaceResult). The nested optional access
geometry?.location is collapsed into one optional coordinate. -/
structure PlaceResult where
  place_id : String
  name : String
  vicinity : Option String
  formatted_address : Option String
  rating : Option ℚ
  user_ratings_total : Option Nat
  geometry : Option Coord
deriving DecidableEq

/-- The component's session state: the useState cells currentPosition,
searchQuery, searchResults, selectedPlace, together with whether the map
instance is mounted (map ≠ null) and whether the SDK is loaded
(isLoaded from useJsApiLoader). -/
structure AppState where
  currentPosition : Option Coord
  mapMounted : Bool
  isLoaded : Bool
  searchQuery : String
  searchResults : List PlaceResult
  selectedPlace : Option PlaceResult
deriving DecidableEq

/-- Observable side effects of the handlers. -/
inductive Effect where
  | panTo (c : Coord)
  | alert (msg : String)
  | consoleError (msg : String)
  | consoleWarn (msg : String)
  | providerSearch (center : Coord) (radius : Nat) (keyword : String)
deriving DecidableEq

/-- handleSearch, synchronous part (MapSearch.tsx lines 66-78): the guard
`if (!map || !searchQuery || !currentPosition || !isLoaded) return;`
followed by issuing the nearbySearch request with the current position as
center, radius 5000 and the query as keyword. -/
def handleSearch (s : AppState) : AppState × List Effect :=
  if !s.mapMounted || s.searchQuery == "" || s.currentPosition.isNone || !s.isLoaded then
    (s, [])
  else
    match s.currentPosition with
    | some pos => (s, [Effect.providerSearch pos 5000 s.searchQuery])
    | none => (s, [])

/-- The nearbySearch callback (MapSearch.tsx lines 79-91). `results` may be
null (modelled as `none`). On `status === OK && results` it stores the
results and, when results[0].geometry?.location exists, pans the captured
map there; otherwise it logs, alerts and clears the results. The trailing
Bool records an uncaught TypeError: with an empty OK result list the code
evaluates `results[0].geometry` on undefined after the state update. -/
def nearbySearchCallback (s : AppState) (results : Option (List PlaceResult))
    (status : String) : AppState × List Effect × Bool :=
  match results with
  | some rs =>
    if status = "OK" then
      let s' := { s with searchResults := rs }
      match rs with
      | [] => (s', [], true)
      | r0 :: _ =>
        match r0.geometry with
        | some loc => (s', [Effect.panTo loc], false)
        | none => (s', [], false)
    else
      ({ s with searchResults := [] },
       [Effect.consoleError ("検索エラー: " ++ status),
        Effect.alert ("スポット検索に失敗しました: " ++ status)], false)
  | none =>
      ({ s with searchResults := [] },
       [Effect.consoleError ("検索エラー: " ++ status),
        Effect.alert ("スポット検索に失敗しました: " ++ status)], false)

/-- onPlacesChanged (MapSearch.tsx lines 107-134): no-op without a search-box
instance or without candidates; with a first candidate that has geometry it
pans (map?.panTo), sets currentPosition, replaces searchResults with the
single candidate and selects it; without geometry it only logs an error. -/
def onPlacesChanged (s : AppState) (searchBoxLoaded : Bool)
    (places : Option (List PlaceResult)) : AppState × List Effect :=
  if !searchBoxLoaded then (s, [])
  else
    match places with
    | none => (s, [])
    | some [] => (s, [])
    | some (firstPlace :: _) =>
      match firstPlace.geometry with
      | some newCenter =>
          ({ s with currentPosition := some newCenter,
                    searchResults := [firstPlace],
                    selectedPlace := some firstPlace },
           if s.mapMounted then [Effect.panTo newCenter] else [])
      | none => (s, [Effect.consoleError "場所のジオメトリ情報が見つかりません。"])

/-- The fixed fallback position (Tokyo Station area), MapSearch.tsx
lines 53 and 59. -/
def defaultPosition : Coord := { lat := 35.681236, lng := 139.767125 }

/-- The three terminal outcomes of the one-shot geolocation request. -/
inductive GeoOutcome where
  | success (lat lng : ℚ)
  | failure
  | unsupported
deriving DecidableEq

/-- The geolocation effect (MapSearch.tsx lines 41-61): success stores the
reported coordinates; the error callback and the unsupported-API branch both
store the fixed default, the error callback also logging a warning. -/
def geolocationStep (s : AppState) (o : GeoOutcome) : AppState × List Effect :=
  match o with
  | .success lat lng => ({ s with currentPosition := some { lat := lat, lng := lng } }, [])
  | .failure =>
      ({ s with currentPosition := some defaultPosition },
       [Effect.consoleWarn "現在地の取得に失敗しました。"])
  | .unsupported => ({ s with currentPosition := some defaultPosition }, [])

/-- Marker onClick (MapSearch.tsx line 214): `() => setSelectedPlace(place)`
and nothing else. -/
def markerClick (s : AppState) (place : PlaceResult) : AppState × List Effect :=
  ({ s with selectedPlace := some place }, [])

/-- List-row onClick (MapSearch.tsx lines 267-273): select the place, then
pan there when it has geometry (map?.panTo). -/
def listRowClick (s : AppState) (place : PlaceResult) : AppState × List Effect :=
  ({ s with selectedPlace := some place },
   match place.geometry with
   | some loc => if s.mapMounted then [Effect.panTo loc] else []
   | none => [])

/-- InfoWindow onCloseClick (MapSearch.tsx line 226):
`() => setSelectedPlace(null)`. -/
def closeOverlay (s : AppState) : AppState × List Effect :=
  ({ s with selectedPlace := none }, [])

/-- JavaScript truthiness of an optional string: undefined and the empty
string are falsy. -/
def strTruthy : Option String → Bool
  | none => false
  | some t => t ≠ ""

/-- The JavaScript expression `a || b` on optional strings, as in
`selectedPlace.vicinity || selectedPlace.formatted_address`. -/
def jsOrString (a b : Option String) : Option String :=
  if strTruthy a then a else b

/-- What the rendered InfoWindow shows (MapSearch.tsx lines 221-247). -/
structure OverlayView where
  anchor : Coord
  title : String
  address : Option String
  ratingLine : Option (ℚ × Option Nat)
  linkHref : String
deriving DecidableEq

/-- The outbound link of the InfoWindow (MapSearch.tsx line 238). -/
def placeLink (p : PlaceResult) : String :=
  "https://www.google.com/maps/search/?api=1&query=" ++ p.name
    ++ "&query_place_id=" ++ p.place_id

/-- The rating paragraph (MapSearch.tsx lines 234-236): rendered only when
`selectedPlace.rating` is JavaScript-truthy, i.e. present and nonzero. -/
def ratingDisplay (p : PlaceResult) : Option (ℚ × Option Nat) :=
  match p.rating with
  | some r => if r = 0 then none else some (r, p.user_ratings_total)
  | none => none

/-- The InfoWindow render condition and contents (MapSearch.tsx lines
221-247): rendered only when `selectedPlace && selectedPlace.geometry?.location`. -/
def renderOverlay (s : AppState) : Option OverlayView :=
  match s.selectedPlace with
  | none => none
  | some p =>
    match p.geometry with
    | none => none
    | some loc =>
        some { anchor := loc
               title := p.name
               address := jsOrString p.vicinity p.formatted_address
               ratingLine := ratingDisplay p
               linkHref := placeLink p }

/-- Concrete coordinate used in test fixtures. -/
def coordCafe : Coord := { lat := 35.6813, lng := 139.7672 }

/-- A fully populated place fixture with geometry. -/
def placeCafe : PlaceResult :=
  { place_id := "p1", name := "Cafe A", vicinity := some "千代田区",
    formatted_address := some "東京都千代田区1-1", rating := some 4.5,
    user_ratings_total := some 120, geometry := some coordCafe }

/-- A place fixture without geometry. -/
def placeNoGeo : PlaceResult :=
  { place_id := "p2", name := "Ghost Cafe", vicinity := none,
    formatted_address := none, rating := none,
    user_ratings_total := none, geometry := none }

/-- A state with SDK loaded, map mounted, a position and a query. -/
def readyState : AppState :=
  { currentPosition := some defaultPosition, mapMounted := true,
    isLoaded := true, searchQuery := "coffee",
    searchResults := [], selectedPlace := none }

/-- readyState with placeCafe in the results and selected. -/
def cafeSelectedState : AppState :=
  { readyState with searchResults := [placeCafe], selectedPlace := some placeCafe }

/-- readyState with the geometry-less place in the results and selected. -/
def ghostSelectedState : AppState :=
  { readyState with searchResults := [placeNoGeo], selectedPlace := some placeNoGeo }

/-- readyState with an empty search query. -/
def idleState : AppState := { readyState with searchQuery := "" }

/-- C1 counterexample: an OK response whose single entry lacks geometry sets
ResultSet but pans nowhere, so "the map center pans to the coordinate of
entry 0" fails for this N = 1 response. -/
theorem C1_counterexample :
    (MapApp.nearbySearchCallback MapApp.readyState (some [MapApp.placeNoGeo]) "OK").1.searchResults
        = [MapApp.placeNoGeo] ∧
    ¬ ∃ loc, MapApp.placeNoGeo.geometry = some loc ∧
        MapApp.Effect.panTo loc
          ∈ (MapApp.nearbySearchCallback MapApp.readyState (some [MapApp.placeNoGeo]) "OK").2.1 := by
  refine ⟨rfl, ?_⟩
  rintro ⟨loc, hgeo, -⟩
  simp [MapApp.placeNoGeo] at hgeo

/-- C1 (amended): an OK callback with result list rs sets ResultSet to rs in
order; when rs is non-empty the map pans to entry 0's coordinate provided
entry 0 has one, and pans nowhere otherwise; when rs is empty ResultSet
becomes empty and no pan occurs. -/
theorem C1_ok_search_sets_results_and_pans (s : MapApp.AppState)
    (rs : List MapApp.PlaceResult) :
    (MapApp.nearbySearchCallback s (some rs) "OK").1.searchResults = rs ∧
    (∀ r0 t loc, rs = r0 :: t → r0.geometry = some loc →
       (MapApp.nearbySearchCallback s (some rs) "OK").2.1 = [MapApp.Effect.panTo loc]) ∧
    (∀ r0 t, rs = r0 :: t → r0.geometry = none →
       (MapApp.nearbySearchCallback s (some rs) "OK").2.1 = []) ∧
    (rs = [] → (MapApp.nearbySearchCallback s (some rs) "OK").2.1 = []) := by
  refine ⟨?_, ?_, ?_, ?_⟩
  · cases rs with
    | nil => rfl
    | cons r0 t => cases h : r0.geometry <;> simp [MapApp.nearbySearchCallback, h]
  · rintro r0 t loc rfl hgeo
    simp [MapApp.nearbySearchCallback, hgeo]
  · rintro r0 t rfl hgeo
    simp [MapApp.nearbySearchCallback, hgeo]
  · rintro rfl
    rfl

/-- C1 witness: at the concrete OK response [placeCafe] the theorem yields
ResultSet = [placeCafe] and a pan to coordCafe. -/
theorem C1_witness :
    (MapApp.nearbySearchCallback MapApp.readyState (some [MapApp.placeCafe]) "OK").1.searchResults
        = [MapApp.placeCafe] ∧
    (MapApp.nearbySearchCallback MapApp.readyState (some [MapApp.placeCafe]) "OK").2.1
        = [MapApp.Effect.panTo MapApp.coordCafe] :=
  ⟨(C1_ok_search_sets_results_and_pans MapApp.readyState [MapApp.placeCafe]).1,
   (C1_ok_search_sets_results_and_pans MapApp.readyState [MapApp.placeCafe]).2.1
     MapApp.placeCafe [] MapApp.coordCafe rfl rfl⟩

/-- C2 counterexample: from a state with placeCafe selected, a successful
search replacing ResultSet with [placeNoGeo] leaves SelectedPlace = placeCafe,
which is not a member of the new ResultSet; a new search does not clear
SelectedPlace and breaks the membership invariant. -/
theorem C2_counterexample :
    (MapApp.nearbySearchCallback MapApp.cafeSelectedState
        (some [MapApp.placeNoGeo]) "OK").1.selectedPlace = some MapApp.placeCafe ∧
    MapApp.placeCafe ∉
      (MapApp.nearbySearchCallback MapApp.cafeSelectedState
        (some [MapApp.placeNoGeo]) "OK").1.searchResults := by
  refine ⟨rfl, ?_⟩
  intro hmem
  simp [MapApp.nearbySearchCallback, MapApp.cafeSelectedState, MapApp.readyState,
    MapApp.placeCafe, MapApp.placeNoGeo] at hmem

/-- C2 (amended): SelectedPlace is cleared on overlay close; keyword searches
(both the synchronous handler and every provider callback) leave SelectedPlace
unchanged, so after a search that replaces ResultSet it may refer to a place
outside the current ResultSet. -/
theorem C2_selected_place_behavior (s : MapApp.AppState)
    (results : Option (List MapApp.PlaceResult)) (status : String) :
    (MapApp.closeOverlay s).1.selectedPlace = none ∧
    (MapApp.handleSearch s).1.selectedPlace = s.selectedPlace ∧
    (MapApp.nearbySearchCallback s results status).1.selectedPlace = s.selectedPlace := by
  refine ⟨rfl, ?_, ?_⟩
  · unfold MapApp.handleSearch
    split
    · rfl
    · cases h : s.currentPosition <;> simp
  · unfold MapApp.nearbySearchCallback
    cases results with
    | none => rfl
    | some rs =>
      by_cases h : status = "OK"
      · cases rs with
        | nil => simp [h]
        | cons r0 t => cases hg : r0.geometry <;> simp [h, hg]
      · simp [h]

/-- C3: evaluation at the failing input: with the map mounted and placeCafe
(which has geometry) in scope, the marker click and the list-row click reach
the same state (both select placeCafe) but the marker click emits no pan while
the list-row click pans to placeCafe's coordinate, contradicting the claimed
observable equivalence. -/
theorem C3_marker_vs_list_row :
    (MapApp.markerClick MapApp.readyState MapApp.placeCafe).1
        = (MapApp.listRowClick MapApp.readyState MapApp.placeCafe).1 ∧
    (MapApp.markerClick MapApp.readyState MapApp.placeCafe).2 = [] ∧
    (MapApp.listRowClick MapApp.readyState MapApp.placeCafe).2
        = [MapApp.Effect.panTo MapApp.coordCafe] :=
  ⟨rfl, rfl, rfl⟩

/-- C4: an autocomplete confirmation whose first candidate has geometry
updates Coordinate, ResultSet (single entry) and SelectedPlace to that
candidate; with no candidate list, an empty one, or a first candidate without
geometry, the whole state is unchanged. -/
theorem C4_autocomplete_pick (s : MapApp.AppState) (places : List MapApp.PlaceResult) :
    (MapApp.onPlacesChanged s true none).1 = s ∧
    (places = [] → (MapApp.onPlacesChanged s true (some places)).1 = s) ∧
    (∀ p0 t loc, places = p0 :: t → p0.geometry = some loc →
       (MapApp.onPlacesChanged s true (some places)).1.currentPosition = some loc ∧
       (MapApp.onPlacesChanged s true (some places)).1.searchResults = [p0] ∧
       (MapApp.onPlacesChanged s true (some places)).1.selectedPlace = some p0) ∧
    (∀ p0 t, places = p0 :: t → p0.geometry = none →
       (MapApp.onPlacesChanged s true (some places)).1 = s) := by
  refine ⟨rfl, ?_, ?_, ?_⟩
  · rintro rfl; rfl
  · rintro p0 t loc rfl hgeo
    refine ⟨?_, ?_, ?_⟩ <;> simp [MapApp.onPlacesChanged, hgeo]
  · rintro p0 t rfl hgeo
    simp [MapApp.onPlacesChanged, hgeo]

/-- C4 witness: at the concrete pick [placeCafe] all three state cells are
updated to the candidate. -/
theorem C4_witness :
    (MapApp.onPlacesChanged MapApp.readyState true (some [MapApp.placeCafe])).1.currentPosition
        = some MapApp.coordCafe ∧
    (MapApp.onPlacesChanged MapApp.readyState true (some [MapApp.placeCafe])).1.searchResults
        = [MapApp.placeCafe] ∧
    (MapApp.onPlacesChanged MapApp.readyState true (some [MapApp.placeCafe])).1.selectedPlace
        = some MapApp.placeCafe :=
  (C4_autocomplete_pick MapApp.readyState [MapApp.placeCafe]).2.2.1
    MapApp.placeCafe [] MapApp.coordCafe rfl rfl

/-- C5: every provider callback with a status other than OK empties
ResultSet, raises an alert whose message names the status, and issues no
further provider search call. -/
theorem C5_failed_search_clears_and_alerts (s : MapApp.AppState)
    (results : Option (List MapApp.PlaceResult)) (status : String)
    (h : status ≠ "OK") :
    (MapApp.nearbySearchCallback s results status).1.searchResults = [] ∧
    MapApp.Effect.alert ("スポット検索に失敗しました: " ++ status)
        ∈ (MapApp.nearbySearchCallback s results status).2.1 ∧
    (∀ c r k, MapApp.Effect.providerSearch c r k
        ∉ (MapApp.nearbySearchCallback s results status).2.1) := by
  unfold MapApp.nearbySearchCallback
  cases results with
  | none => simp
  | some rs => simp [h]

/-- C5 witness: the concrete ZERO_RESULTS failure clears the results of
cafeSelectedState and alerts naming ZERO_RESULTS. -/
theorem C5_witness :
    (MapApp.nearbySearchCallback MapApp.cafeSelectedState none "ZERO_RESULTS").1.searchResults
        = [] ∧
    MapApp.Effect.alert ("スポット検索に失敗しました: " ++ "ZERO_RESULTS")
        ∈ (MapApp.nearbySearchCallback MapApp.cafeSelectedState none "ZERO_RESULTS").2.1 :=
  ⟨(C5_failed_search_clears_and_alerts MapApp.cafeSelectedState none "ZERO_RESULTS"
      (by decide)).1,
   (C5_failed_search_clears_and_alerts MapApp.cafeSelectedState none "ZERO_RESULTS"
      (by decide)).2.1⟩

/-- C6: when the query is empty, the position is absent, the map is not
mounted or the SDK is not loaded, handleSearch performs no provider call and
leaves the whole state unchanged. -/
theorem C6_guarded_no_op (s : MapApp.AppState)
    (h : s.searchQuery = "" ∨ s.currentPosition = none ∨
         s.mapMounted = false ∨ s.isLoaded = false) :
    MapApp.handleSearch s = (s, []) := by
  rcases h with h | h | h | h <;> simp [MapApp.handleSearch, h]

/-- C6 witness: with the concrete empty-query state the search is a no-op. -/
theorem C6_witness : MapApp.handleSearch MapApp.idleState = (MapApp.idleState, []) :=
  C6_guarded_no_op MapApp.idleState (Or.inl rfl)

/-- C7: every geolocation outcome leaves Coordinate set: to the reported
latitude/longitude on success and to the fixed default on failure or when the
API is unsupported; it is never none afterwards. -/
theorem C7_geolocation_always_sets (s : MapApp.AppState) (lat lng : ℚ) :
    (MapApp.geolocationStep s (MapApp.GeoOutcome.success lat lng)).1.currentPosition
        = some { lat := lat, lng := lng } ∧
    (MapApp.geolocationStep s MapApp.GeoOutcome.failure).1.currentPosition
        = some MapApp.defaultPosition ∧
    (MapApp.geolocationStep s MapApp.GeoOutcome.unsupported).1.currentPosition
        = some MapApp.defaultPosition ∧
    (∀ o : MapApp.GeoOutcome, (MapApp.geolocationStep s o).1.currentPosition ≠ none) := by
  refine ⟨rfl, rfl, rfl, ?_⟩
  intro o
  cases o <;> simp [MapApp.geolocationStep]

/-- C8 counterexample: with the geometry-less place selected (reachable by
clicking its list row), SelectedPlace is set but no overlay is rendered. -/
theorem C8_counterexample :
    MapApp.ghostSelectedState.selectedPlace ≠ none ∧
    MapApp.renderOverlay MapApp.ghostSelectedState = none := by
  refine ⟨?_, rfl⟩
  simp [MapApp.ghostSelectedState, MapApp.readyState]

/-- C8 (amended): whenever SelectedPlace is set and has a coordinate, the
overlay is rendered anchored at that coordinate, showing the place's name,
its address preferring the vicinity text and falling back to the formatted
address, its rating and rating count whenever a nonzero rating is present
(and no rating line when the rating is absent), and the outbound provider
link built from the place's name and id. -/
theorem C8_overlay_contents (s : MapApp.AppState) (p : MapApp.PlaceResult)
    (loc : MapApp.Coord) (hsel : s.selectedPlace = some p)
    (hgeo : p.geometry = some loc) :
    ∃ v : MapApp.OverlayView, MapApp.renderOverlay s = some v ∧
      v.anchor = loc ∧ v.title = p.name ∧
      (MapApp.strTruthy p.vicinity = true → v.address = p.vicinity) ∧
      (MapApp.strTruthy p.vicinity = false → v.address = p.formatted_address) ∧
      (∀ r, p.rating = some r → r ≠ 0 → v.ratingLine = some (r, p.user_ratings_total)) ∧
      (p.rating = none → v.ratingLine = none) ∧
      v.linkHref = MapApp.placeLink p := by
  refine ⟨{ anchor := loc, title := p.name,
            address := MapApp.jsOrString p.vicinity p.formatted_address,
            ratingLine := MapApp.ratingDisplay p,
            linkHref := MapApp.placeLink p }, ?_, rfl, rfl, ?_, ?_, ?_, ?_, rfl⟩
  · simp [MapApp.renderOverlay, hsel, hgeo]
  · intro ht
    simp [MapApp.jsOrString, ht]
  · intro ht
    simp [MapApp.jsOrString, ht]
  · intro r hr hr0
    simp [MapApp.ratingDisplay, hr, hr0]
  · intro hr
    simp [MapApp.ratingDisplay, hr]

/-- C8 witness: with placeCafe selected the overlay is rendered, anchored at
coordCafe and titled with placeCafe's name. -/
theorem C8_witness :
    ∃ v : MapApp.OverlayView,
      MapApp.renderOverlay MapApp.cafeSelectedState = some v ∧
      v.anchor = MapApp.coordCafe ∧ v.title = MapApp.placeCafe.name := by
  obtain ⟨v, hrender, hanchor, htitle, -⟩ :=
    C8_overlay_contents MapApp.cafeSelectedState MapApp.placeCafe MapApp.coordCafe rfl rfl
  exact ⟨v, hrender, hanchor, htitle⟩

/-- C9: closing the overlay clears SelectedPlace and changes nothing else:
ResultSet, Coordinate and the query text are untouched and no side effect is
produced. -/
theorem C9_close_overlay_frame (s : MapApp.AppState) :
    (MapApp.closeOverlay s).1.selectedPlace = none ∧
    (MapApp.closeOverlay s).1.searchResults = s.searchResults ∧
    (MapApp.closeOverlay s).1.currentPosition = s.currentPosition ∧
    (MapApp.closeOverlay s).1.searchQuery = s.searchQuery ∧
    (MapApp.closeOverlay s).2 = [] :=
  ⟨rfl, rfl, rfl, rfl, rfl⟩

/-- C10: no branch of a keyword search (guard, synchronous dispatch, OK or
failed callback) changes Coordinate, and neither do marker clicks, list-row
clicks or overlay close; an autocomplete pick without a geometry-bearing
first candidate also preserves it, while geolocation success sets it — so
Coordinate is only ever set by geolocation and by geometry-bearing
autocomplete picks. -/
theorem C10_search_preserves_coordinate (s : MapApp.AppState) :
    (MapApp.handleSearch s).1.currentPosition = s.currentPosition ∧
    (∀ results status,
       (MapApp.nearbySearchCallback s results status).1.currentPosition
         = s.currentPosition) ∧
    (∀ p, (MapApp.markerClick s p).1.currentPosition = s.currentPosition) ∧
    (∀ p, (MapApp.listRowClick s p).1.currentPosition = s.currentPosition) ∧
    (MapApp.closeOverlay s).1.currentPosition = s.currentPosition ∧
    (∀ b places, (places.bind List.head?).bind MapApp.PlaceResult.geometry = none →
       (MapApp.onPlacesChanged s b places).1.currentPosition = s.currentPosition) ∧
    (∀ lat lng,
       (MapApp.geolocationStep s (MapApp.GeoOutcome.success lat lng)).1.currentPosition
         = some { lat := lat, lng := lng }) := by
  refine ⟨?_, ?_, fun p => rfl, fun p => rfl, rfl, ?_, fun lat lng => rfl⟩
  · unfold MapApp.handleSearch
    split
    · rfl
    · cases h : s.currentPosition <;> simp [h]
  · intro results status
    unfold MapApp.nearbySearchCallback
    cases results with
    | none => rfl
    | some rs =>
      by_cases h : status = "OK"
      · cases rs with
        | nil => simp [h]
        | cons r0 t => cases hg : r0.geometry <;> simp [h, hg]
      · simp [h]
  · intro b places hnone
    cases b with
    | false => rfl
    | true =>
      cases places with
      | none => rfl
      | some rs =>
        cases rs with
        | nil => rfl
        | cons p0 t =>
          simp [List.head?] at hnone
          simp [MapApp.onPlacesChanged, hnone]

/-- C10 witness: at the concrete ready state, a failed callback, a marker
click and a geometry-less autocomplete pick all leave Coordinate unchanged. -/
theorem C10_witness :
    (MapApp.nearbySearchCallback MapApp.readyState none "ZERO_RESULTS").1.currentPosition
        = MapApp.readyState.currentPosition ∧
    (MapApp.onPlacesChanged MapApp.readyState true
        (some [MapApp.placeNoGeo])).1.currentPosition
        = MapApp.readyState.currentPosition :=
  ⟨(C10_search_preserves_coordinate MapApp.readyState).2.1 none "ZERO_RESULTS",
   (C10_search_preserves_coordinate MapApp.readyState).2.2.2.2.2.1 true
     (some [MapApp.placeNoGeo]) rfl⟩

end MapApp
